import Mathlib

/-!
# Verification of `horovod/tensorflow/elastic.py`

A shallow embedding of the elastic state-management module.  Live TensorFlow
variables are modelled as an index-addressed store inside an explicit
environment `Env`; model and optimizer weights of the Keras variant are
separate slots of the environment.  Every primitive of the source
(`numpy()`, `eval(session)`, `assign`, `load`, `broadcast_variables`,
`session.run`, `get_weights`/`set_weights`, `broadcast_object`) appends an
`Event` to a trace, so ordering claims can be stated about the trace.
The collective broadcast is modelled by a `rootStore`/`rootModelWeights`/
`rootOptWeights`/`rootAttrs` component of the environment holding the
coordinator's (rank 0) values, which a broadcast imposes on the local slots.
-/

/-- A variable's value: a numpy array modelled as a list of integers. -/
abbrev Value := List Int

/-- Observable primitive calls, recorded in the environment's trace. -/
inductive Event where
  | readVarEager (i : Nat)        -- `var.numpy()`
  | readVarGraph (i : Nat)        -- `var.eval(session)`
  | writeVarAssign (i : Nat)      -- `var.assign(value)`
  | writeVarLoad (i : Nat)        -- `var.load(value, session)`
  | bcastVars (idxs : List Nat) (root : Nat)  -- `hvd.broadcast_variables(vars, root_rank)`
  | bcastGlobal (root : Nat)      -- `hvd.broadcast_global_variables(root)`
  | bcastModelVars (root : Nat)   -- `hvd.broadcast_variables(model.variables, root_rank)`
  | bcastOptVars (root : Nat)     -- `hvd.broadcast_variables(optimizer.variables(), root_rank)`
  | sessionRun                    -- `session.run(op)`
  | readModelWeights | readOptWeights     -- `model.get_weights()` / `optimizer.get_weights()`
  | writeModelWeights | writeOptWeights   -- `model.set_weights(...)` / `optimizer.set_weights(...)`
  | bcastObject                   -- the generic object-broadcast primitive
  | baseSave | baseRestore        -- shared base snapshot work on plain-data attributes
deriving DecidableEq, Repr

/-- Events belonging to the shared base's generic-attribute work; everything
else is variant-specific tensor-state work. -/
def Event.isObjectEvent : Event → Bool
  | .bcastObject => true
  | .baseSave => true
  | .baseRestore => true
  | _ => false

/-- The world outside the State objects: live variable values (`store`),
live Keras model/optimizer weights, the coordinator's values that a
collective broadcast imposes, the global variable collection, the execution
mode flags, the default session, and the trace of primitive calls. -/
structure Env where
  store : Nat → Value
  modelWeights : List Value
  optWeights : List Value
  rootStore : Nat → Value
  rootModelWeights : List Value
  rootOptWeights : List Value
  rootAttrs : List (String × Int)
  globals : List Nat
  eager : Bool
  is_tf2 : Bool
  defaultSession : Option Unit

  trace : List Event

/-- Pointwise update of the store. -/
def setVar (store : Nat → Value) (i : Nat) (v : Value) : Nat → Value :=
  fun j => if j = i then v else store j

/-- Sequential application of (variable, value) writes, in list order. -/
def writeList (store : Nat → Value) : List (Nat × Value) → (Nat → Value)
  | [] => store
  | (i, v) :: rest => writeList (setVar store i v) rest

/-- Effect of a collective broadcast on the store: every tracked index takes
the coordinator's value, everything else is untouched. -/
def applyBcast (store root : Nat → Value) (idxs : List Nat) : Nat → Value :=
  fun j => if j ∈ idxs then root j else store j

/-! ## Module-level helpers of the source -/

/-- `_model_built(model)`: `model.built if hasattr(model, 'build') else True`.
A Keras model is modelled by whether it has a `build` attribute, its `built`
flag, and its (possibly absent) `optimizer` attribute. -/
structure KModel where
  hasBuildAttr : Bool
  built : Bool
  optimizer : Option Unit
deriving DecidableEq, Repr

def _model_built (m : KModel) : Bool :=
  if m.hasBuildAttr then m.built else true

/-- `_global_variables()`: the live global variable collection (both the TF1
and TF2 spellings read the same collection). -/
def _global_variables (env : Env) : List Nat :=
  env.globals

/-- `_default_session()`: `ops.get_default_session() if not _IS_TF2 else None`. -/
def _default_session (env : Env) : Option Unit :=
  if !env.is_tf2 then env.defaultSession else none

/-- Python `x or y` on an optional list argument: `None` and the empty list
are both falsy. -/
def pyOrList (x : Option (List Nat)) (y : List Nat) : List Nat :=
  match x with
  | none => y
  | some [] => y
  | some (v :: vs) => v :: vs

/-- Python `x or y` on an optional object argument (`None` is falsy). -/
def pyOrOpt (x y : Option Unit) : Option Unit :=
  match x with
  | none => y
  | some u => some u

/-! ## Primitive reads and writes of single variables -/

/-- `var.numpy()`: direct numeric materialization of a live variable. -/
def _to_numpy (env : Env) (i : Nat) : Value × Env :=
  (env.store i, { env with trace := env.trace ++ [Event.readVarEager i] })

/-- `var.eval(session)`: graph-evaluation query against the session. -/
def _eval_var (sess : Option Unit) (env : Env) (i : Nat) : Value × Env :=
  (env.store i, { env with trace := env.trace ++ [Event.readVarGraph i] })

/-- `var.assign(value)`: direct in-place numeric assignment. -/
def _assign_var (env : Env) (i : Nat) (v : Value) : Env :=
  { env with store := setVar env.store i v,
             trace := env.trace ++ [Event.writeVarAssign i] }

/-- `var.load(value, session)`: graph-mode load routed through the session. -/
def _load_var (sess : Option Unit) (env : Env) (i : Nat) (v : Value) : Env :=
  { env with store := setVar env.store i v,
             trace := env.trace ++ [Event.writeVarLoad i] }

/-- The read strategy chosen once at construction:
`self._eval_fn = self._to_numpy if _hvd._executing_eagerly() else self._eval_var`. -/
inductive EvalFn where
  | to_numpy
  | eval_var
deriving DecidableEq, Repr

/-- The write strategy chosen once at construction:
`self._assign_fn = self._assign_var if _IS_TF2 else self._load_var`. -/
inductive AssignFn where
  | assign_var
  | load_var
deriving DecidableEq, Repr

/-- Dispatch of `self._eval_fn(var)`. -/
def evalFnApply (f : EvalFn) (sess : Option Unit) (env : Env) (i : Nat) : Value × Env :=
  match f with
  | .to_numpy => _to_numpy env i
  | .eval_var => _eval_var sess env i

/-- Dispatch of `self._assign_fn(var, value)`. -/
def assignFnApply (f : AssignFn) (sess : Option Unit) (env : Env) (i : Nat) (v : Value) : Env :=
  match f with
  | .assign_var => _assign_var env i v
  | .load_var => _load_var sess env i v

/-- The trace event a single read produces. -/
def readEventOf (f : EvalFn) (i : Nat) : Event :=
  match f with
  | .to_numpy => Event.readVarEager i
  | .eval_var => Event.readVarGraph i

/-- The trace event a single write produces. -/
def writeEventOf (f : AssignFn) (i : Nat) : Event :=
  match f with
  | .assign_var => Event.writeVarAssign i
  | .load_var => Event.writeVarLoad i

/-- `[self._eval_fn(var) for var in vs]`: read each variable in order. -/
def evalList (f : EvalFn) (sess : Option Unit) (env : Env) : List Nat → List Value × Env
  | [] => ([], env)
  | v :: vs =>
      let p := evalFnApply f sess env v
      let q := evalList f sess p.2 vs
      (p.1 :: q.1, q.2)

/-- `for var, value in pairs: self._assign_fn(var, value)`. -/
def loadList (f : AssignFn) (sess : Option Unit) (env : Env) : List (Nat × Value) → Env
  | [] => env
  | (i, v) :: rest => loadList f sess (assignFnApply f sess env i v) rest

/-! ## Collective primitives -/

/-- The deferred operation returned by `hvd.broadcast_variables`. -/
structure BcastOp where
  idxs : List Nat
  root : Nat

/-- `hvd.broadcast_variables(variables, root_rank)`: in eager mode the call
itself imposes the coordinator's values on the live variables; in graph mode
it only constructs the operation, which `session.run` later applies. -/
def broadcast_variables (env : Env) (idxs : List Nat) (root : Nat) : BcastOp × Env :=
  if env.eager then
    (⟨idxs, root⟩, { env with store := applyBcast env.store env.rootStore idxs,
                              trace := env.trace ++ [Event.bcastVars idxs root] })
  else
    (⟨idxs, root⟩, { env with trace := env.trace ++ [Event.bcastVars idxs root] })

/-- `session.run(bcast_op)`: execute the broadcast operation. -/
def session_run (env : Env) (op : BcastOp) : Env :=
  { env with store := applyBcast env.store env.rootStore op.idxs,
             trace := env.trace ++ [Event.sessionRun] }

/-- `hvd.broadcast_object(obj)`: generic object broadcast, returning the
coordinator's copy. -/
def broadcast_object (env : Env) (obj : List (String × Int)) :
    List (String × Int) × Env :=
  (env.rootAttrs, { env with trace := env.trace ++ [Event.bcastObject] })

/-! ## Shared base class -/

/-- Modelled from the spec: the shared base class `ObjectState`
(`horovod.common.elastic`), whose code is not under `src/`.  Per the spec it
holds user-registered plain-data attributes (the `**kwargs` of construction),
captures them on construction and on `save()`, reapplies the captured copy on
`restore()`, and on `sync()` replicates them via the generic object-broadcast
primitive and commits the result as the new baseline (the snapshot is
replaced on every `save()` or successful `sync()`). -/
structure ObjectBase where
  attrs : List (String × Int)
  saved_attrs : List (String × Int)
deriving DecidableEq, Repr

/-- Modelled from the spec: base construction registers the extra attributes
and captures them once (`Initialized → Snapshotted` on construction). -/
def ObjectBase.init (kwargs : List (String × Int)) : ObjectBase :=
  { attrs := kwargs, saved_attrs := kwargs }

/-- Modelled from the spec: base `save()` captures the plain-data attributes. -/
def ObjectBase.save (b : ObjectBase) (env : Env) : ObjectBase × Env :=
  ({ b with saved_attrs := b.attrs },
   { env with trace := env.trace ++ [Event.baseSave] })

/-- Modelled from the spec: base `restore()` reapplies the captured copy. -/
def ObjectBase.restore (b : ObjectBase) (env : Env) : ObjectBase × Env :=
  ({ b with attrs := b.saved_attrs },
   { env with trace := env.trace ++ [Event.baseRestore] })

/-- Modelled from the spec: base `sync()` replicates the attributes via the
object-broadcast primitive and commits the result as the new baseline. -/
def ObjectBase.sync (b : ObjectBase) (env : Env) : ObjectBase × Env :=
  let p := broadcast_object env b.attrs
  ({ b with attrs := p.1, saved_attrs := p.1 }, p.2)

/-! ## `TensorFlowState` (Variant B: raw variables) -/

structure TensorFlowState where
  «variables» : List Nat
  session : Option Unit
  eval_fn : EvalFn      -- source field `_eval_fn`
  assign_fn : AssignFn  -- source field `_assign_fn`
  values : List Value   -- source field `_values`
  base : ObjectBase

/-- `self._values = [self._eval_fn(var) for var in self.variables]`. -/
def TensorFlowState.save_model (s : TensorFlowState) (env : Env) :
    TensorFlowState × Env :=
  let p := evalList s.eval_fn s.session env s.«variables»
  ({ s with values := p.1 }, p.2)

/-- `for var, value in zip(self.variables, self._values): self._assign_fn(var, value)`. -/
def TensorFlowState.load_model (s : TensorFlowState) (env : Env) : Env :=
  loadList s.assign_fn s.session env (s.«variables».zip s.values)

/-- `TensorFlowState.__init__(variables=None, session=None, **kwargs)`. -/
def TensorFlowState.init («variables» : Option (List Nat)) (session : Option Unit)
    (kwargs : List (String × Int)) (env : Env) : TensorFlowState × Env :=
  let vars := pyOrList «variables» (_global_variables env)
  let sess := pyOrOpt session (_default_session env)
  let ef := if env.eager then EvalFn.to_numpy else EvalFn.eval_var
  let af := if env.is_tf2 then AssignFn.assign_var else AssignFn.load_var
  let s0 : TensorFlowState :=
    { «variables» := vars, session := sess, eval_fn := ef, assign_fn := af,
      values := [], base := ObjectBase.init kwargs }
  s0.save_model env

/-- `save(): self._save_model(); super().save()`. -/
def TensorFlowState.save (s : TensorFlowState) (env : Env) : TensorFlowState × Env :=
  let p := s.save_model env
  let q := p.1.base.save p.2
  ({ p.1 with base := q.1 }, q.2)

/-- `restore(): self._load_model(); super().restore()`. -/
def TensorFlowState.restore (s : TensorFlowState) (env : Env) : TensorFlowState × Env :=
  let env1 := s.load_model env
  let q := s.base.restore env1
  ({ s with base := q.1 }, q.2)

/-- `sync(): bcast_op = hvd.broadcast_variables(self.variables, root_rank=0);
if self.session is not None: self.session.run(bcast_op);
self._save_model(); super().sync()`. -/
def TensorFlowState.sync (s : TensorFlowState) (env : Env) : TensorFlowState × Env :=
  let p := broadcast_variables env s.«variables» 0
  let env2 := match s.session with
    | some _ => session_run p.2 p.1
    | none => p.2
  let q := s.save_model env2
  let r := q.1.base.sync q.2
  ({ q.1 with base := r.1 }, r.2)

/-! ## `TensorFlowKerasState` (Variant A: model/optimizer) -/

/-- Python errors the Keras constructor can raise. -/
inductive PyError where
  | valueError (msg : String)
  | attributeError (msg : String)
deriving DecidableEq, Repr

def unbuiltErrMsg : String :=
  "Model must be built first. Run model.build(input_shape)."

/-- `model.get_weights()`. -/
def model_get_weights (env : Env) : List Value × Env :=
  (env.modelWeights, { env with trace := env.trace ++ [Event.readModelWeights] })

/-- `optimizer.get_weights()`. -/
def optimizer_get_weights (env : Env) : List Value × Env :=
  (env.optWeights, { env with trace := env.trace ++ [Event.readOptWeights] })

/-- `model.set_weights(w)`. -/
def model_set_weights (env : Env) (w : List Value) : Env :=
  { env with modelWeights := w, trace := env.trace ++ [Event.writeModelWeights] }

/-- `optimizer.set_weights(w)`. -/
def optimizer_set_weights (env : Env) (w : List Value) : Env :=
  { env with optWeights := w, trace := env.trace ++ [Event.writeOptWeights] }

/-- `_broadcast_model(model, optimizer, backend)`: eagerly broadcast the
model's then the optimizer's live variables, or in graph mode build the
global-variables broadcast and run it through the backend's session. -/
def _broadcast_model (model : KModel) (optimizer : Option Unit)
    (backend : Option Unit) (env : Env) : Env :=
  if env.eager then
    let env1 := { env with modelWeights := env.rootModelWeights,
                           trace := env.trace ++ [Event.bcastModelVars 0] }
    { env1 with optWeights := env1.rootOptWeights,
                trace := env1.trace ++ [Event.bcastOptVars 0] }
  else
    let env1 := { env with trace := env.trace ++ [Event.bcastGlobal 0] }
    { env1 with modelWeights := env1.rootModelWeights,
                optWeights := env1.rootOptWeights,
                store := applyBcast env1.store env1.rootStore env1.globals,
                trace := env1.trace ++ [Event.sessionRun] }

structure TensorFlowKerasState where
  model : KModel
  optimizer : Option Unit
  backend : Option Unit
  saved_model_state : List Value      -- source field `_saved_model_state`
  saved_optimizer_state : List Value  -- source field `_saved_optimizer_state`
  base : ObjectBase

/-- `_save_model(): self._saved_model_state = self.model.get_weights();
self._saved_optimizer_state = self.optimizer.get_weights()`. -/
def TensorFlowKerasState.save_model (s : TensorFlowKerasState) (env : Env) :
    TensorFlowKerasState × Env :=
  let p := model_get_weights env
  let q := optimizer_get_weights p.2
  ({ s with saved_model_state := p.1, saved_optimizer_state := q.1 }, q.2)

/-- `_load_model(): self.model.set_weights(self._saved_model_state);
self.optimizer.set_weights(self._saved_optimizer_state)`. -/
def TensorFlowKerasState.load_model (s : TensorFlowKerasState) (env : Env) : Env :=
  optimizer_set_weights (model_set_weights env s.saved_model_state)
    s.saved_optimizer_state

/-- `TensorFlowKerasState.__init__(model, optimizer=None, backend=None, **kwargs)`:
raises `ValueError` when the model is not built; resolves the optimizer as
`optimizer or model.optimizer` (an absent optimizer surfaces as an
`AttributeError` when its weights are first read); captures the initial
snapshot; then runs base construction. -/
def TensorFlowKerasState.init (model : KModel) (optimizer : Option Unit)
    (backend : Option Unit) (kwargs : List (String × Int)) (env : Env) :
    Except PyError TensorFlowKerasState × Env :=
  if !_model_built model then
    (Except.error (PyError.valueError unbuiltErrMsg), env)
  else
    let opt := pyOrOpt optimizer model.optimizer
    let p := model_get_weights env
    match opt with
    | none =>
        (Except.error (PyError.attributeError
          "NoneType object has no attribute get_weights"), p.2)
    | some _ =>
        let q := optimizer_get_weights p.2
        (Except.ok { model := model, optimizer := opt, backend := backend,
                     saved_model_state := p.1, saved_optimizer_state := q.1,
                     base := ObjectBase.init kwargs }, q.2)

/-- `save(): self._save_model(); super().save()`. -/
def TensorFlowKerasState.save (s : TensorFlowKerasState) (env : Env) :
    TensorFlowKerasState × Env :=
  let p := s.save_model env
  let q := p.1.base.save p.2
  ({ p.1 with base := q.1 }, q.2)

/-- `restore(): self._load_model(); super().restore()`. -/
def TensorFlowKerasState.restore (s : TensorFlowKerasState) (env : Env) :
    TensorFlowKerasState × Env :=
  let env1 := s.load_model env
  let q := s.base.restore env1
  ({ s with base := q.1 }, q.2)

/-- `sync(): _broadcast_model(self.model, self.optimizer, backend=self.backend);
self._save_model(); super().sync()`. -/
def TensorFlowKerasState.sync (s : TensorFlowKerasState) (env : Env) :
    TensorFlowKerasState × Env :=
  let env1 := _broadcast_model s.model s.optimizer s.backend env
  let p := s.save_model env1
  let q := p.1.base.sync p.2
  ({ p.1 with base := q.1 }, q.2)

/-- Following the spec's words for the write-strategy claim: direct in-place
numeric assignment when eager execution is active AND the framework version
supports assignment natively, a graph-mode load otherwise.  To be compared
with the selection the source actually performs. -/
def specRestoreWriteStrategy (eager supports_native_assign : Bool) : AssignFn :=
  if eager && supports_native_assign then AssignFn.assign_var else AssignFn.load_var

/-! ## Derived characterizations and concrete sample inputs -/

/-- The store `TensorFlowState.sync` leaves behind: the broadcast imposes the
coordinator's values on the tracked variables when eager, and the session run
imposes them when a session is present. -/
def tfSyncStore (s : TensorFlowState) (env : Env) : Nat → Value :=
  let b := if env.eager then applyBcast env.store env.rootStore s.«variables» else env.store
  if s.session.isSome then applyBcast b env.rootStore s.«variables» else b

/-- The store `TensorFlowKerasState.sync` leaves behind: the graph-mode
branch broadcasts the whole global variable collection. -/
def kerasSyncStore (env : Env) : Nat → Value :=
  if env.eager then env.store else applyBcast env.store env.rootStore env.globals

/-- A concrete sample environment: eager TF2, two global variables. -/
def envEagerTF2 : Env :=
  { store := fun i => [Int.ofNat i], modelWeights := [[1]], optWeights := [[2]],
    rootStore := fun _ => [7], rootModelWeights := [[9]], rootOptWeights := [[8]],
    rootAttrs := [("step", 5)], globals := [0, 1], eager := true, is_tf2 := true,
    defaultSession := none, trace := [] }

/-- A concrete sample environment: TF2 with eager execution disabled. -/
def envGraphTF2 : Env :=
  { envEagerTF2 with eager := false }

/-- A concrete sample environment whose global collection grew to `[0, 1, 5]`
after a state was constructed against `envEagerTF2`. -/
def envWide : Env :=
  { envEagerTF2 with globals := [0, 1, 5] }

/-- A concrete Keras model that has a `build` attribute but is not built. -/
def modelUnbuilt : KModel :=
  { hasBuildAttr := true, built := false, optimizer := some () }

/-- A concrete model-like object without a `build` attribute. -/
def modelNoBuild : KModel :=
  { hasBuildAttr := false, built := false, optimizer := some () }

/-- A concrete raw-variable state constructed against `envEagerTF2`. -/
def tfStateSample : TensorFlowState :=
  (TensorFlowState.init none none [("step", 0)] envEagerTF2).1

/-! ## Characterization lemmas -/

theorem setVar_self (store : Nat → Value) (i : Nat) :
    setVar store i (store i) = store := by
  funext j
  by_cases h : j = i <;> simp [setVar, h]

theorem writeList_zip_self (store : Nat → Value) (vs : List Nat) :
    writeList store (vs.zip (vs.map store)) = store := by
  induction vs with
  | nil => rfl
  | cons v vs ih =>
      show writeList (setVar store v (store v)) (vs.zip (vs.map store)) = store
      rw [setVar_self]
      exact ih

theorem writeList_not_mem (store : Nat → Value) (ps : List (Nat × Value)) (i : Nat)
    (h : ∀ p ∈ ps, p.1 ≠ i) : writeList store ps i = store i := by
  induction ps generalizing store with
  | nil => rfl
  | cons p ps ih =>
      obtain ⟨a, v⟩ := p
      have ha : a ≠ i := h (a, v) (List.mem_cons_self _ _)
      show writeList (setVar store a v) ps i = store i
      rw [ih _ fun q hq => h q (List.mem_cons_of_mem _ hq)]
      simp only [setVar]
      rw [if_neg (Ne.symm ha)]

theorem evalList_eq (f : EvalFn) (sess : Option Unit) (env : Env) (vs : List Nat) :
    evalList f sess env vs
      = (vs.map env.store,
         { env with trace := env.trace ++ vs.map (readEventOf f) }) := by
  induction vs generalizing env with
  | nil => simp [evalList]
  | cons v vs ih =>
      cases f <;>
        simp [evalList, evalFnApply, _to_numpy, _eval_var, readEventOf, ih,
          List.append_assoc]

theorem loadList_eq (f : AssignFn) (sess : Option Unit) (env : Env)
    (ps : List (Nat × Value)) :
    loadList f sess env ps
      = { env with store := writeList env.store ps,
                   trace := env.trace ++ ps.map (fun p => writeEventOf f p.1) } := by
  induction ps generalizing env with
  | nil => simp [loadList, writeList]
  | cons p ps ih =>
      obtain ⟨i, v⟩ := p
      cases f <;>
        simp [loadList, writeList, assignFnApply, _assign_var, _load_var,
          writeEventOf, ih, List.append_assoc]

theorem save_model_eq (s : TensorFlowState) (env : Env) :
    s.save_model env
      = ({ s with values := s.«variables».map env.store },
         { env with trace := env.trace ++ s.«variables».map (readEventOf s.eval_fn) }) := by
  simp [TensorFlowState.save_model, evalList_eq]

theorem load_model_eq (s : TensorFlowState) (env : Env) :
    s.load_model env
      = { env with store := writeList env.store (s.«variables».zip s.values),
                   trace := env.trace
                     ++ (s.«variables».zip s.values).map
                          (fun p => writeEventOf s.assign_fn p.1) } := by
  simp [TensorFlowState.load_model, loadList_eq]

theorem tf_save_eq (s : TensorFlowState) (env : Env) :
    s.save env
      = ({ s with values := s.«variables».map env.store,
                  base := { s.base with saved_attrs := s.base.attrs } },
         { env with trace := env.trace ++ s.«variables».map (readEventOf s.eval_fn)
                      ++ [Event.baseSave] }) := by
  simp [TensorFlowState.save, save_model_eq, ObjectBase.save, List.append_assoc]

theorem tf_restore_eq (s : TensorFlowState) (env : Env) :
    s.restore env
      = ({ s with base := { s.base with attrs := s.base.saved_attrs } },
         { env with store := writeList env.store (s.«variables».zip s.values),
                    trace := env.trace
                      ++ (s.«variables».zip s.values).map
                           (fun p => writeEventOf s.assign_fn p.1)
                      ++ [Event.baseRestore] }) := by
  simp [TensorFlowState.restore, load_model_eq, ObjectBase.restore, List.append_assoc]

theorem tf_sync_eq (s : TensorFlowState) (env : Env) :
    s.sync env
      = ({ s with values := s.«variables».map (tfSyncStore s env),
                  base := { s.base with
                             attrs := env.rootAttrs,
                             saved_attrs := env.rootAttrs } },
         { env with store := tfSyncStore s env,
                    trace := env.trace ++ [Event.bcastVars s.«variables» 0]
                      ++ (if s.session.isSome then [Event.sessionRun] else [])
                      ++ s.«variables».map (readEventOf s.eval_fn)
                      ++ [Event.bcastObject] }) := by
  cases hs : s.session <;> cases he : env.eager <;>
    simp [TensorFlowState.sync, broadcast_variables, session_run, save_model_eq,
      ObjectBase.sync, broadcast_object, tfSyncStore, hs, he, List.append_assoc]

theorem keras_save_eq (s : TensorFlowKerasState) (env : Env) :
    s.save env
      = ({ s with saved_model_state := env.modelWeights,
                  saved_optimizer_state := env.optWeights,
                  base := { s.base with saved_attrs := s.base.attrs } },
         { env with trace := env.trace
             ++ [Event.readModelWeights, Event.readOptWeights, Event.baseSave] }) := by
  simp [TensorFlowKerasState.save, TensorFlowKerasState.save_model,
    model_get_weights, optimizer_get_weights, ObjectBase.save, List.append_assoc]

theorem keras_restore_eq (s : TensorFlowKerasState) (env : Env) :
    s.restore env
      = ({ s with base := { s.base with attrs := s.base.saved_attrs } },
         { env with modelWeights := s.saved_model_state,
                    optWeights := s.saved_optimizer_state,
                    trace := env.trace
                      ++ [Event.writeModelWeights, Event.writeOptWeights,
                          Event.baseRestore] }) := by
  simp [TensorFlowKerasState.restore, TensorFlowKerasState.load_model,
    model_set_weights, optimizer_set_weights, ObjectBase.restore, List.append_assoc]

theorem keras_sync_eq (s : TensorFlowKerasState) (env : Env) :
    s.sync env
      = ({ s with saved_model_state := env.rootModelWeights,
                  saved_optimizer_state := env.rootOptWeights,
                  base := { s.base with
                             attrs := env.rootAttrs,
                             saved_attrs := env.rootAttrs } },
         { env with modelWeights := env.rootModelWeights,
                    optWeights := env.rootOptWeights,
                    store := kerasSyncStore env,
                    trace := env.trace
                      ++ (if env.eager then
                            [Event.bcastModelVars 0, Event.bcastOptVars 0]
                          else [Event.bcastGlobal 0, Event.sessionRun])
                      ++ [Event.readModelWeights, Event.readOptWeights,
                          Event.bcastObject] }) := by
  cases he : env.eager <;>
    simp [TensorFlowKerasState.sync, _broadcast_model, TensorFlowKerasState.save_model,
      model_get_weights, optimizer_get_weights, ObjectBase.sync, broadcast_object,
      kerasSyncStore, he, List.append_assoc]

theorem readEventOf_not_object (f : EvalFn) (i : Nat) :
    (readEventOf f i).isObjectEvent = false := by
  cases f <;> rfl

theorem writeEventOf_not_object (f : AssignFn) (i : Nat) :
    (writeEventOf f i).isObjectEvent = false := by
  cases f <;> rfl

theorem all_read_events (f : EvalFn) (vs : List Nat) :
    (vs.map (readEventOf f)).all (fun e => !e.isObjectEvent) = true := by
  induction vs with
  | nil => rfl
  | cons v vs ih => simp_all [readEventOf_not_object]

theorem all_write_events (f : AssignFn) (ps : List (Nat × Value)) :
    (ps.map (fun p => writeEventOf f p.1)).all (fun e => !e.isObjectEvent) = true := by
  rw [List.all_eq_true]
  intro e he
  obtain ⟨p, hp, rfl⟩ := List.mem_map.mp he
  simp [writeEventOf_not_object]

theorem all_session_events (c : Bool) :
    (if c then [Event.sessionRun] else []).all (fun e => !e.isObjectEvent) = true := by
  cases c <;> rfl

theorem all_keras_bcast_events (c : Bool) :
    ((if c then [Event.bcastModelVars 0, Event.bcastOptVars 0]
      else [Event.bcastGlobal 0, Event.sessionRun]).all
        (fun e => !e.isObjectEvent)) = true := by
  cases c <;> rfl

theorem tfSyncStore_not_mem (s : TensorFlowState) (env : Env) (i : Nat)
    (hi : i ∉ s.«variables») : tfSyncStore s env i = env.store i := by
  cases he : env.eager <;> cases hs : s.session.isSome <;>
    simp [tfSyncStore, he, hs, applyBcast, hi]

/-! ## The claims -/

/-- Claim C1: for either State variant, `save()` followed immediately by
`restore()` (no intervening mutation) leaves every tracked live value
unchanged — the raw-variable store pointwise, the Keras model and optimizer
weights, and the base-level plain-data attributes. -/
theorem C1_save_restore_roundtrip (s : TensorFlowState) (ks : TensorFlowKerasState)
    (env env2 : Env) :
    (((s.save env).1.restore (s.save env).2).2.store = env.store
      ∧ ((s.save env).1.restore (s.save env).2).1.base.attrs = s.base.attrs)
    ∧ (((ks.save env2).1.restore (ks.save env2).2).2.modelWeights = env2.modelWeights
      ∧ ((ks.save env2).1.restore (ks.save env2).2).2.optWeights = env2.optWeights
      ∧ ((ks.save env2).1.restore (ks.save env2).2).1.base.attrs = ks.base.attrs) := by
  simp [tf_save_eq, tf_restore_eq, keras_save_eq, keras_restore_eq, writeList_zip_self]

/-- Claim C2: after `sync()` returns, a subsequent `restore()` with no
intervening `save()` leaves the tracked live values (and the base plain-data
attributes) unchanged, because `sync` re-captures the post-broadcast values
as the new baseline before delegating to the base. -/
theorem C2_sync_then_restore_noop (s : TensorFlowState) (ks : TensorFlowKerasState)
    (env env2 : Env) :
    (((s.sync env).1.restore (s.sync env).2).2.store = (s.sync env).2.store
      ∧ ((s.sync env).1.restore (s.sync env).2).1.base.attrs = (s.sync env).1.base.attrs)
    ∧ (((ks.sync env2).1.restore (ks.sync env2).2).2.modelWeights
          = (ks.sync env2).2.modelWeights
      ∧ ((ks.sync env2).1.restore (ks.sync env2).2).2.optWeights
          = (ks.sync env2).2.optWeights
      ∧ ((ks.sync env2).1.restore (ks.sync env2).2).1.base.attrs
          = (ks.sync env2).1.base.attrs) := by
  simp [tf_sync_eq, tf_restore_eq, keras_sync_eq, keras_restore_eq, writeList_zip_self]

/-- Claim C3: constructing a `TensorFlowKerasState` from a model that is not
built raises the `ValueError` immediately, returning the environment
untouched (no model mutation, no reads, no trace events). -/
theorem C3_unbuilt_model_raises (model : KModel) (optimizer backend : Option Unit)
    (kwargs : List (String × Int)) (env : Env) (h : _model_built model = false) :
    TensorFlowKerasState.init model optimizer backend kwargs env
      = (Except.error (PyError.valueError unbuiltErrMsg), env) := by
  simp [TensorFlowKerasState.init, h]

/-- Witness for C3 at a concrete unbuilt model and environment. -/
theorem C3_witness :
    _model_built modelUnbuilt = false
      ∧ TensorFlowKerasState.init modelUnbuilt none none [] envEagerTF2
          = (Except.error (PyError.valueError unbuiltErrMsg), envEagerTF2) :=
  ⟨by decide, C3_unbuilt_model_raises modelUnbuilt none none [] envEagerTF2 (by decide)⟩

/-- Claim C9: an explicit but empty variable collection is falsy under
Python `or`, so construction falls back to the live global collection exactly
as when no collection is supplied: the two constructions coincide. -/
theorem C9_empty_variable_list_falls_back (session : Option Unit)
    (kwargs : List (String × Int)) (env : Env) :
    TensorFlowState.init (some []) session kwargs env
      = TensorFlowState.init none session kwargs env := rfl

/-- Claim C10: a model object without a `build` attribute is treated as
built, so `TensorFlowKerasState` construction never raises the unbuilt-model
`ValueError` for it. -/
theorem C10_no_build_attr_never_unbuilt_error (m : KModel)
    (optimizer backend : Option Unit) (kwargs : List (String × Int)) (env : Env)
    (h : m.hasBuildAttr = false) :
    _model_built m = true
      ∧ (TensorFlowKerasState.init m optimizer backend kwargs env).1
          ≠ Except.error (PyError.valueError unbuiltErrMsg) := by
  have hb : _model_built m = true := by simp [_model_built, h]
  refine ⟨hb, ?_⟩
  simp only [TensorFlowKerasState.init, hb]
  cases hopt : pyOrOpt optimizer m.optimizer <;> simp

/-- Witness for C10 at a concrete model lacking a `build` attribute. -/
theorem C10_witness :
    _model_built modelNoBuild = true
      ∧ (TensorFlowKerasState.init modelNoBuild none none [] envEagerTF2).1
          ≠ Except.error (PyError.valueError unbuiltErrMsg) :=
  C10_no_build_attr_never_unbuilt_error modelNoBuild none none [] envEagerTF2 rfl

/-- Claim C4, counterexample: in a TF2 environment with eager execution
disabled, construction selects direct assignment (`_assign_var`), while the
claim's selection rule — assign only when eager execution is active AND the
version supports native assignment — selects the graph-mode load.  The write
strategy is therefore not chosen the way the claim states. -/
theorem C4_counterexample :
    envGraphTF2.eager = false ∧ envGraphTF2.is_tf2 = true
      ∧ (TensorFlowState.init none none [] envGraphTF2).1.assign_fn
          = AssignFn.assign_var
      ∧ specRestoreWriteStrategy envGraphTF2.eager envGraphTF2.is_tf2
          = AssignFn.load_var := by
  refine ⟨rfl, rfl, ?_, rfl⟩
  rfl

/-- Claim C4 (amended): the write strategy used by `restore()` is selected
exactly once at construction, but solely from the framework-version
capability flag: direct assignment when the framework is TF2, the
session-routed graph-mode load otherwise — independent of whether eager
execution is active. -/
theorem C4_amended_strategy_from_version («variables» : Option (List Nat))
    (session : Option Unit) (kwargs : List (String × Int)) (env : Env) (b : Bool) :
    ((TensorFlowState.init «variables» session kwargs env).1.assign_fn
        = if env.is_tf2 then AssignFn.assign_var else AssignFn.load_var)
      ∧ (TensorFlowState.init «variables» session kwargs
            { env with eager := b }).1.assign_fn
        = (TensorFlowState.init «variables» session kwargs env).1.assign_fn := by
  simp [TensorFlowState.init, save_model_eq]

/-- Claim C5: each of the six operations (`save`/`restore`/`sync` on either
variant) appends to the trace a block of variant-specific tensor events
followed by a block of shared-base generic-attribute events — tensor-state
work first, generic attribute replication second. -/
theorem C5_variant_before_base (s : TensorFlowState) (ks : TensorFlowKerasState)
    (env : Env) :
    (∃ t o, (s.save env).2.trace = env.trace ++ t ++ o
        ∧ t.all (fun e => !e.isObjectEvent) = true
        ∧ o.all (fun e => e.isObjectEvent) = true)
    ∧ (∃ t o, (s.restore env).2.trace = env.trace ++ t ++ o
        ∧ t.all (fun e => !e.isObjectEvent) = true
        ∧ o.all (fun e => e.isObjectEvent) = true)
    ∧ (∃ t o, (s.sync env).2.trace = env.trace ++ t ++ o
        ∧ t.all (fun e => !e.isObjectEvent) = true
        ∧ o.all (fun e => e.isObjectEvent) = true)
    ∧ (∃ t o, (ks.save env).2.trace = env.trace ++ t ++ o
        ∧ t.all (fun e => !e.isObjectEvent) = true
        ∧ o.all (fun e => e.isObjectEvent) = true)
    ∧ (∃ t o, (ks.restore env).2.trace = env.trace ++ t ++ o
        ∧ t.all (fun e => !e.isObjectEvent) = true
        ∧ o.all (fun e => e.isObjectEvent) = true)
    ∧ (∃ t o, (ks.sync env).2.trace = env.trace ++ t ++ o
        ∧ t.all (fun e => !e.isObjectEvent) = true
        ∧ o.all (fun e => e.isObjectEvent) = true) := by
  refine ⟨?_, ?_, ?_, ?_, ?_, ?_⟩
  · exact ⟨s.«variables».map (readEventOf s.eval_fn), [Event.baseSave],
      by rw [tf_save_eq], all_read_events _ _, rfl⟩
  · exact ⟨(s.«variables».zip s.values).map (fun p => writeEventOf s.assign_fn p.1),
      [Event.baseRestore], by rw [tf_restore_eq], all_write_events _ _, rfl⟩
  · refine ⟨[Event.bcastVars s.«variables» 0]
        ++ (if s.session.isSome then [Event.sessionRun] else [])
        ++ s.«variables».map (readEventOf s.eval_fn),
      [Event.bcastObject], ?_, ?_, rfl⟩
    · rw [tf_sync_eq]
      simp [List.append_assoc]
    · have h1 : (Event.bcastVars s.«variables» 0).isObjectEvent = false := rfl
      simp [List.all_append, all_read_events, all_session_events, h1]
  · exact ⟨[Event.readModelWeights, Event.readOptWeights], [Event.baseSave],
      by simp [keras_save_eq], rfl, rfl⟩
  · exact ⟨[Event.writeModelWeights, Event.writeOptWeights], [Event.baseRestore],
      by simp [keras_restore_eq], rfl, rfl⟩
  · refine ⟨(if env.eager then [Event.bcastModelVars 0, Event.bcastOptVars 0]
        else [Event.bcastGlobal 0, Event.sessionRun])
        ++ [Event.readModelWeights, Event.readOptWeights],
      [Event.bcastObject], ?_, ?_, rfl⟩
    · rw [keras_sync_eq]
      simp [List.append_assoc]
    · have h2 : Event.readModelWeights.isObjectEvent = false := rfl
      have h3 : Event.readOptWeights.isObjectEvent = false := rfl
      simp [List.all_append, all_keras_bcast_events, h2, h3]

/-- Claim C6: `TensorFlowState.sync` issues exactly one broadcast over the
tracked variables with the coordinator (rank 0) as root; the trace contains a
session run if and only if a session is present; and in eager mode with no
session the broadcast call itself has already set every tracked variable to
the coordinator's value, which still holds when `sync` returns. -/
theorem C6_sync_broadcast_strategy (s : TensorFlowState) (env : Env) :
    ((s.sync env).2.trace
        = env.trace ++ [Event.bcastVars s.«variables» 0]
            ++ (if s.session.isSome then [Event.sessionRun] else [])
            ++ s.«variables».map (readEventOf s.eval_fn) ++ [Event.bcastObject])
    ∧ ∀ i ∈ s.«variables», env.eager = true → s.session = none →
        (broadcast_variables env s.«variables» 0).2.store i = env.rootStore i
          ∧ (s.sync env).2.store i = env.rootStore i := by
  constructor
  · rw [tf_sync_eq]
  · intro i hi he hsess
    constructor
    · simp [broadcast_variables, he, applyBcast, hi]
    · rw [tf_sync_eq]
      simp [tfSyncStore, he, hsess, applyBcast, hi]

/-- Witness for C6: in the eager sessionless configuration the broadcast
call alone, and `sync` as a whole, leave variable 0 holding the
coordinator's value. -/
theorem C6_witness :
    (broadcast_variables envEagerTF2 tfStateSample.«variables» 0).2.store 0
        = envEagerTF2.rootStore 0
      ∧ (tfStateSample.sync envEagerTF2).2.store 0 = envEagerTF2.rootStore 0 :=
  (C6_sync_broadcast_strategy tfStateSample envEagerTF2).2 0 (by decide) rfl rfl

/-- Claim C7: snapshot capture reads each tracked variable with the strategy
fixed at construction: `numpy()` materialization when executing eagerly,
`eval(session)` graph evaluation otherwise — visible both in the stored
strategy and in the reads the construction-time capture performs. -/
theorem C7_capture_strategy («variables» : Option (List Nat))
    (session : Option Unit) (kwargs : List (String × Int)) (env : Env) :
    ((TensorFlowState.init «variables» session kwargs env).1.eval_fn
        = if env.eager then EvalFn.to_numpy else EvalFn.eval_var)
      ∧ (TensorFlowState.init «variables» session kwargs env).2.trace
        = env.trace ++ (pyOrList «variables» (_global_variables env)).map
            (readEventOf (if env.eager then EvalFn.to_numpy else EvalFn.eval_var)) := by
  cases he : env.eager <;> simp [TensorFlowState.init, save_model_eq, he]

/-- Claim C8: with no explicit variable set the constructor captures the
global collection live at construction time as the tracked set; the tracked
set is never changed by the three operations, and a variable outside it
(such as one added to the global collection later) is left untouched by
`save`, `restore` and `sync` against any later environment. -/
theorem C8_construction_time_globals (session : Option Unit)
    (kwargs : List (String × Int)) (env : Env) :
    ((TensorFlowState.init none session kwargs env).1.«variables» = env.globals)
    ∧ ∀ (env2 : Env) (i : Nat), i ∉ env.globals →
        (((TensorFlowState.init none session kwargs env).1.save env2).1.«variables»
            = env.globals
          ∧ ((TensorFlowState.init none session kwargs env).1.save env2).2.store i
            = env2.store i)
        ∧ (((TensorFlowState.init none session kwargs env).1.restore env2).1.«variables»
            = env.globals
          ∧ ((TensorFlowState.init none session kwargs env).1.restore env2).2.store i
            = env2.store i)
        ∧ (((TensorFlowState.init none session kwargs env).1.sync env2).1.«variables»
            = env.globals
          ∧ ((TensorFlowState.init none session kwargs env).1.sync env2).2.store i
            = env2.store i) := by
  have hvars : (TensorFlowState.init none session kwargs env).1.«variables»
      = env.globals := by
    simp [TensorFlowState.init, save_model_eq, pyOrList, _global_variables]
  refine ⟨hvars, ?_⟩
  intro env2 i hi
  have hi' : i ∉ (TensorFlowState.init none session kwargs env).1.«variables» := by
    rw [hvars]; exact hi
  refine ⟨⟨?_, ?_⟩, ⟨?_, ?_⟩, ⟨?_, ?_⟩⟩
  · rw [tf_save_eq]; exact hvars
  · rw [tf_save_eq]
  · rw [tf_restore_eq]; exact hvars
  · rw [tf_restore_eq]
    exact writeList_not_mem _ _ _
      (fun p hp hpi => hi' (hpi ▸ (List.of_mem_zip hp).1))
  · rw [tf_sync_eq]; exact hvars
  · rw [tf_sync_eq]
    exact tfSyncStore_not_mem _ _ _ hi'

/-- Witness for C8: variable 5, added to the global collection only after
construction (environment `envWide`), is untouched by all three operations. -/
theorem C8_witness :
    (((TensorFlowState.init none none [] envEagerTF2).1.save envWide).2.store 5
        = envWide.store 5)
      ∧ (((TensorFlowState.init none none [] envEagerTF2).1.restore envWide).2.store 5
        = envWide.store 5)
      ∧ (((TensorFlowState.init none none [] envEagerTF2).1.sync envWide).2.store 5
        = envWide.store 5) :=
  ⟨((C8_construction_time_globals none [] envEagerTF2).2 envWide 5 (by decide)).1.2,
   ((C8_construction_time_globals none [] envEagerTF2).2 envWide 5 (by decide)).2.1.2,
   ((C8_construction_time_globals none [] envEagerTF2).2 envWide 5 (by decide)).2.2.2⟩
